import Mathlib

/-!
Shallow embedding of the MERN-Think-Board backend: the Note store schema
(Models/note.js), the note controllers (controllers/notesController.js),
the admission gate (middleware/rateLimiter.js), and server startup
(src/backend/src/config/db.js, src/backend/src/server.js).

Timestamps are abstract natural-number clock values supplied by the caller;
store identifiers are natural numbers (the value of a MongoDB ObjectId),
and HTTP-level id strings are cast to them exactly as Mongoose casts a
request parameter to an ObjectId (24 hexadecimal characters).
-/

namespace ThinkBoard

/-- A persisted Note document: Models/note.js declares `title` and `content`
as required Strings and `timestamps: true` adds `createdAt`/`updatedAt`;
MongoDB adds the `_id`. -/
structure Note where
  id : Nat
  title : String
  content : String
  createdAt : Nat
  updatedAt : Nat
deriving Repr, DecidableEq

/-- The durable notes collection, with the generator state for fresh ids. -/
structure Store where
  notes : List Note
  nextId : Nat
deriving Repr, DecidableEq

/-- Mongoose's required-field check for a String path: the value must be
present and non-empty (Mongoose's String checkRequired rejects `""`). -/
def checkRequired : Option String → Bool
  | none => false
  | some s => !(s == "")

def isHexDigit (c : Char) : Bool :=
  c.isDigit || ('a' ≤ c && c ≤ 'f') || ('A' ≤ c && c ≤ 'F')

def hexDigitVal (c : Char) : Nat :=
  if c.isDigit then c.toNat - '0'.toNat
  else if 'a' ≤ c && c ≤ 'f' then c.toNat - 'a'.toNat + 10
  else c.toNat - 'A'.toNat + 10

/-- Mongoose's cast of a route parameter to an ObjectId: a 24-character
hexadecimal string casts to the identifier value, anything else throws a
CastError (modelled as `none`). -/
def castObjectId (s : String) : Option Nat :=
  if s.length == 24 && s.toList.all isHexDigit then
    some (s.toList.foldl (fun acc c => 16 * acc + hexDigitVal c) 0)
  else none

/-- Errors thrown by the Mongoose layer: schema validation failure
(ValidationError) and malformed-identifier cast failure (CastError, the
InvalidIdentifier of the spec's taxonomy). -/
inductive MongooseError where
  | validationError
  | castError
deriving Repr, DecidableEq

/-- Modelled from the spec: controllers/notesController.js `createNote` and
Models/note.js are not in the repository snapshot; per the spec, create
validates both required fields, then persists a Note whose `createdAt` and
`updatedAt` are both the current time and whose id is freshly generated. -/
def saveNote (s : Store) (title content : Option String) (now : Nat) :
    Except MongooseError (Note × Store) :=
  if checkRequired title && checkRequired content then
    let n : Note :=
      { id := s.nextId, title := title.getD "", content := content.getD "",
        createdAt := now, updatedAt := now }
    .ok (n, { notes := s.notes ++ [n], nextId := s.nextId + 1 })
  else .error .validationError

/-- `Note.findById`: the first document whose `_id` matches. -/
def findById (s : Store) (n : Nat) : Option Note :=
  s.notes.find? (fun note => note.id == n)

/-- The document produced by a successful update: `title`/`content`
overwritten, `updatedAt` refreshed, `_id` and `createdAt` untouched. -/
def applyUpdate (old : Note) (t c : String) (now : Nat) : Note :=
  { old with title := t, content := c, updatedAt := now }

/-- Modelled from the spec: controllers/notesController.js `updateNote` via
`findByIdAndUpdate` is not in the repository snapshot; per the spec, update
fails with ValidationError when a field is missing/empty, yields nothing
when the id is unknown, and otherwise rewrites `title`/`content` and
refreshes `updatedAt`, leaving `_id`/`createdAt` untouched. -/
def findByIdAndUpdate (s : Store) (n : Nat) (title content : Option String)
    (now : Nat) : Except MongooseError (Option (Note × Store)) :=
  if checkRequired title && checkRequired content then
    match s.notes.find? (fun note => note.id == n) with
    | none => .ok none
    | some old =>
      let u := applyUpdate old (title.getD "") (content.getD "") now
      .ok (some (u,
        { s with notes := s.notes.map (fun note => if note.id == n then u else note) }))
  else .error .validationError

/-- `Note.findByIdAndDelete`: removes the matching document, if any. -/
def findByIdAndDelete (s : Store) (n : Nat) : Option (Note × Store) :=
  match s.notes.find? (fun note => note.id == n) with
  | none => none
  | some old =>
    some (old, { s with notes := s.notes.filter (fun note => !(note.id == n)) })

/-- Descending-by-creation order used by `Note.find().sort(\x7bcreatedAt: -1\x7d)`. -/
def byNewest (a b : Note) : Prop := b.createdAt ≤ a.createdAt

instance : DecidableRel byNewest := fun a b => Nat.decLe b.createdAt a.createdAt

instance : IsTotal Note byNewest := ⟨fun a b => Nat.le_total b.createdAt a.createdAt⟩

instance : IsTrans Note byNewest := ⟨fun _ _ _ h1 h2 => Nat.le_trans h2 h1⟩

/-- `Note.find().sort(\x7bcreatedAt: -1\x7d)`: every document, newest first. -/
def findSorted (s : Store) : List Note := s.notes.insertionSort byNewest

/-- Service-level get: cast the raw id, then look the document up. -/
def getNotesById (s : Store) (idStr : String) : Except MongooseError (Option Note) :=
  match castObjectId idStr with
  | none => .error .castError
  | some n => .ok (findById s n)

/-- Service-level update: cast the raw id, then `findByIdAndUpdate`. -/
def updateNote (s : Store) (idStr : String) (title content : Option String)
    (now : Nat) : Except MongooseError (Option (Note × Store)) :=
  match castObjectId idStr with
  | none => .error .castError
  | some n => findByIdAndUpdate s n title content now

/-- Service-level delete: cast the raw id, then `findByIdAndDelete`. -/
def deleteNote (s : Store) (idStr : String) :
    Except MongooseError (Option (Note × Store)) :=
  match castObjectId idStr with
  | none => .error .castError
  | some n => .ok (findByIdAndDelete s n)

/-- An HTTP response body: a bare confirmation/error message, a single
serialized Note, or an array of Notes. -/
inductive ApiBody where
  | message (text : String)
  | noteBody (n : Note)
  | notesBody (l : List Note)
deriving Repr, DecidableEq

structure HttpResponse where
  status : Nat
  body : ApiBody
deriving Repr, DecidableEq

/-- Backend state seen by a controller: whether the mongoose connection was
established at startup, and the durable store. -/
structure DB where
  connected : Bool
  store : Store
deriving Repr, DecidableEq

def serverError : HttpResponse := { status := 500, body := .message "Internal server error" }

def notFoundError : HttpResponse := { status := 404, body := .message "Note not found" }

/-- Modelled from the spec: controllers/notesController.js `getAllNotes` is
not in the repository snapshot; per the in-repo docs it sends 200 with the
sorted array, and its catch-all sends 500 on any store fault. -/
def getAllNotesCtrl (db : DB) : HttpResponse × DB :=
  if db.connected then
    ({ status := 200, body := .notesBody (findSorted db.store) }, db)
  else (serverError, db)

/-- Modelled from the spec: controllers/notesController.js `getNotesById` is
not in the repository snapshot; per the in-repo docs the endpoint answers
200 with the note, 404 when no document matches, and 500 for any thrown
error (a CastError included: the try-catch sends 500). -/
def getNotesByIdCtrl (db : DB) (idStr : String) : HttpResponse × DB :=
  if db.connected then
    match getNotesById db.store idStr with
    | .error _ => (serverError, db)
    | .ok none => (notFoundError, db)
    | .ok (some note) => ({ status := 200, body := .noteBody note }, db)
  else (serverError, db)

/-- Modelled from the spec: controllers/notesController.js `createNote` is
not in the repository snapshot; per the in-repo docs it answers
`201 \x7bmessage: "Note created sucessfully"\x7d` and its catch-all maps any
thrown error (ValidationError included) to 500. -/
def createNoteCtrl (db : DB) (title content : Option String) (now : Nat) :
    HttpResponse × DB :=
  if db.connected then
    match saveNote db.store title content now with
    | .ok (_, s) =>
      ({ status := 201, body := .message "Note created sucessfully" }, { db with store := s })
    | .error _ => (serverError, db)
  else (serverError, db)

/-- Modelled from the spec: controllers/notesController.js `updateNote` is
not in the repository snapshot; per the in-repo docs it answers 200 with a
confirmation message, 404 when no document matches, 500 on any thrown
error. -/
def updateNoteCtrl (db : DB) (idStr : String) (title content : Option String)
    (now : Nat) : HttpResponse × DB :=
  if db.connected then
    match updateNote db.store idStr title content now with
    | .error _ => (serverError, db)
    | .ok none => (notFoundError, db)
    | .ok (some (_, s)) =>
      ({ status := 200, body := .message "Note updated successfully" }, { db with store := s })
  else (serverError, db)

/-- Modelled from the spec: controllers/notesController.js `deleteNote` is
not in the repository snapshot; per the in-repo docs it answers 200 with a
confirmation message, 404 when no document matches, 500 on any thrown
error. -/
def deleteNoteCtrl (db : DB) (idStr : String) : HttpResponse × DB :=
  if db.connected then
    match deleteNote db.store idStr with
    | .error _ => (serverError, db)
    | .ok none => (notFoundError, db)
    | .ok (some (_, s)) =>
      ({ status := 200, body := .message "Note deleted successfully" }, { db with store := s })
  else (serverError, db)

/-- State of the Upstash sliding-window counter for the single global key
"my-rate-limit": how many requests it has admitted in the current
60-second window. -/
structure RateLimitState where
  count : Nat
deriving Repr, DecidableEq

inductive Endpoint where
  | getAll
  | getOne
  | create
  | put
  | remove
deriving Repr, DecidableEq

/-- A request as the admission gate sees it: which endpoint it targets and
which caller issued it. The gate consults neither. -/
structure Request where
  endpoint : Endpoint
  caller : Nat
deriving Repr, DecidableEq

/-- Modelled from the spec: middleware/rateLimiter.js and config/upstash.js
are not in the repository snapshot; per the in-repo docs the limiter is a
100-requests-per-60-seconds window on the fixed key "my-rate-limit":
`ratelimit.limit` succeeds and counts the request while under the
threshold, and fails once the window's count has reached it. -/
def ratelimitLimit (st : RateLimitState) : Bool × RateLimitState :=
  if st.count < 100 then (true, { count := st.count + 1 }) else (false, st)

/-- Outcome of the admission gate for one request: whether the note service
(router/controller) was invoked, and the short-circuit status if not. -/
structure GateOutcome where
  serviceInvoked : Bool
  status : Option Nat
deriving Repr, DecidableEq

/-- Modelled from the spec: middleware/rateLimiter.js is not in the
repository snapshot; per the in-repo docs it calls
`ratelimit.limit("my-rate-limit")` ignoring the request's endpoint and
caller, answers 429 without invoking the router when the check fails, and
passes the request on otherwise. -/
def ratelimiter (st : RateLimitState) (_r : Request) : GateOutcome × RateLimitState :=
  match ratelimitLimit st with
  | (true, st2) => ({ serviceInvoked := true, status := none }, st2)
  | (false, st2) => ({ serviceInvoked := false, status := some 429 }, st2)

/-- Runs a sequence of requests through the gate within one window. -/
def runRequests (st : RateLimitState) : List Request → RateLimitState
  | [] => st
  | r :: rs => runRequests (ratelimiter st r).2 rs

/-- src/backend/src/config/db.js `mongoose.connect`: succeeds or throws,
depending on whether the configured store is reachable. -/
def mongooseConnect (connectOk : Bool) : Except String Bool :=
  if connectOk then .ok true else .error "error connecting to mongo db"

/-- src/backend/src/config/db.js `connectDB`: awaits `mongoose.connect`
inside try-catch; on failure it only logs, so the promise always resolves
normally. The returned flag records whether the connection was
established. -/
def connectDB (connectOk : Bool) : Except String Bool :=
  match mongooseConnect connectOk with
  | .ok _ => .ok true
  | .error _ => .ok false

/-- Observable startup state from src/backend/src/server.js. -/
structure ServerState where
  listening : Bool
  dbConnected : Bool
deriving Repr, DecidableEq

/-- src/backend/src/server.js: `connectDB().then(() => app.listen(PORT))` —
`app.listen` runs whenever `connectDB` resolves. -/
def startServer (connectOk : Bool) : Except String ServerState :=
  match connectDB connectOk with
  | .ok conn => .ok { listening := true, dbConnected := conn }
  | .error e => .error e

/-- The persisted-Note invariant of the spec: every stored document has a
non-empty title and a non-empty content. -/
def persistedValid (s : Store) : Bool :=
  s.notes.all (fun n => !(n.title == "") && !(n.content == ""))

/-- Fresh-id discipline the store maintains: every stored id is below the
generator. -/
def storeWF (s : Store) : Bool :=
  s.notes.all (fun n => n.id < s.nextId)

end ThinkBoard

namespace ThinkBoard

theorem checkRequired_getD {o : Option String} (h : checkRequired o = true) :
    ¬ o.getD "" = "" := by
  cases o with
  | none => simp [checkRequired] at h
  | some s => simpa [checkRequired] using h

theorem persistedValid_iff {s : Store} :
    persistedValid s = true ↔ ∀ n ∈ s.notes, ¬ n.title = "" ∧ ¬ n.content = "" := by
  simp [persistedValid, List.all_eq_true]

theorem storeWF_iff {s : Store} :
    storeWF s = true ↔ ∀ n ∈ s.notes, n.id < s.nextId := by
  simp [storeWF, List.all_eq_true]

theorem find?_filter_ne (l : List Note) (n : Nat) :
    (l.filter (fun x => !(x.id == n))).find? (fun x => x.id == n) = none := by
  rw [List.find?_eq_none]
  intro x hx
  rcases List.mem_filter.mp hx with ⟨-, hpx⟩
  simpa using hpx

theorem find?_append_last (l : List Note) (a : Note) (p : Note → Bool)
    (h : ∀ x ∈ l, p x = false) (ha : p a = true) :
    (l ++ [a]).find? p = some a := by
  have h1 : l.find? p = none := List.find?_eq_none.mpr (fun x hx => by simp [h x hx])
  rw [List.find?_append, h1, List.find?_cons_of_pos _ ha]
  rfl

theorem find?_map_update (l : List Note) (n : Nat) (u : Note) (old : Note)
    (hu : (u.id == n) = true)
    (h : l.find? (fun x => x.id == n) = some old) :
    (l.map (fun x => if x.id == n then u else x)).find? (fun x => x.id == n) =
      some u := by
  induction l with
  | nil => simp at h
  | cons a l ih =>
    rw [List.find?_cons] at h
    simp only [List.map_cons, List.find?_cons]
    cases hpa : (a.id == n) with
    | true => simp [hpa, hu]
    | false =>
      rw [hpa] at h
      simp only [hpa, Bool.false_eq_true, if_false]
      exact ih h

theorem runRequests_count (reqs : List Request) (st : RateLimitState)
    (h : st.count ≤ 100) :
    (runRequests st reqs).count = min (st.count + reqs.length) 100 := by
  induction reqs generalizing st with
  | nil => simp [runRequests]; omega
  | cons r rs ih =>
    by_cases hlt : st.count < 100
    · have hstep : (ratelimiter st r).2 = { count := st.count + 1 } := by
        simp [ratelimiter, ratelimitLimit, hlt]
      rw [runRequests, hstep, ih _ (by show st.count + 1 ≤ 100; omega)]
      show min (st.count + 1 + rs.length) 100 = min (st.count + (r :: rs).length) 100
      simp only [List.length_cons]
      omega
    · have hstep : (ratelimiter st r).2 = st := by
        simp [ratelimiter, ratelimitLimit, hlt]
      rw [runRequests, hstep, ih _ h]
      simp only [List.length_cons]
      omega

end ThinkBoard

namespace ThinkBoard

theorem persistedValid_save {s : Store} {t c : Option String} {now : Nat}
    {nw : Note} {s2 : Store} (h : persistedValid s = true)
    (hs : saveNote s t c now = .ok (nw, s2)) : persistedValid s2 = true := by
  unfold saveNote at hs
  by_cases hv : (checkRequired t && checkRequired c) = true
  · rw [if_pos hv] at hs
    simp only [Bool.and_eq_true] at hv
    obtain ⟨ht, hc⟩ := hv
    simp only [Except.ok.injEq, Prod.mk.injEq] at hs
    obtain ⟨h1, h2⟩ := hs
    subst h2
    rw [persistedValid_iff] at h ⊢
    intro m hm
    rcases List.mem_append.mp hm with hmem | hmem
    · exact h m hmem
    · rcases List.mem_singleton.mp hmem with rfl
      exact ⟨checkRequired_getD ht, checkRequired_getD hc⟩
  · rw [if_neg hv] at hs
    exact absurd hs (by simp)

theorem persistedValid_update {s : Store} {n : Nat} {t c : Option String}
    {now : Nat} {u : Note} {s2 : Store} (h : persistedValid s = true)
    (hs : findByIdAndUpdate s n t c now = .ok (some (u, s2))) :
    persistedValid s2 = true := by
  unfold findByIdAndUpdate at hs
  by_cases hv : (checkRequired t && checkRequired c) = true
  · rw [if_pos hv] at hs
    simp only [Bool.and_eq_true] at hv
    obtain ⟨ht, hc⟩ := hv
    cases hfd : s.notes.find? (fun note => note.id == n) with
    | none => rw [hfd] at hs; simp at hs
    | some old =>
      rw [hfd] at hs
      simp only [Except.ok.injEq, Option.some.injEq, Prod.mk.injEq] at hs
      obtain ⟨h1, h2⟩ := hs
      subst h2
      rw [persistedValid_iff] at h ⊢
      intro m hm
      rcases List.mem_map.mp hm with ⟨a, ha, rfl⟩
      by_cases hid : (a.id == n) = true
      · rw [if_pos hid]
        exact ⟨checkRequired_getD ht, checkRequired_getD hc⟩
      · rw [if_neg hid]
        exact h a ha
  · rw [if_neg hv] at hs
    exact absurd hs (by simp)

theorem persistedValid_delete {s : Store} {n : Nat} {old : Note} {s2 : Store}
    (h : persistedValid s = true)
    (hs : findByIdAndDelete s n = some (old, s2)) : persistedValid s2 = true := by
  unfold findByIdAndDelete at hs
  cases hfd : s.notes.find? (fun note => note.id == n) with
  | none => rw [hfd] at hs; simp at hs
  | some a =>
    rw [hfd] at hs
    simp only [Option.some.injEq, Prod.mk.injEq] at hs
    obtain ⟨h1, h2⟩ := hs
    subst h2
    rw [persistedValid_iff] at h ⊢
    intro m hm
    exact h m (List.mem_filter.mp hm).1

/-- Claim C1: for every persisted Note in the store, title and content are
present and non-empty: each of the five request handlers, run on a store
satisfying the invariant, leaves a store still satisfying it, so no create
or update ever writes a Note with a missing or empty title or content to
durable storage. -/
theorem claim_C1_persisted_nonempty (db : DB) (t c : Option String)
    (idStr : String) (now : Nat) (h : persistedValid db.store = true) :
    persistedValid ((createNoteCtrl db t c now).2.store) = true ∧
    persistedValid ((updateNoteCtrl db idStr t c now).2.store) = true ∧
    persistedValid ((deleteNoteCtrl db idStr).2.store) = true ∧
    persistedValid ((getAllNotesCtrl db).2.store) = true ∧
    persistedValid ((getNotesByIdCtrl db idStr).2.store) = true := by
  refine ⟨?_, ?_, ?_, ?_, ?_⟩
  · unfold createNoteCtrl
    by_cases hcn : db.connected = true
    · rw [if_pos hcn]
      cases hres : saveNote db.store t c now with
      | ok p =>
        obtain ⟨nw, s2⟩ := p
        exact persistedValid_save h hres
      | error e => exact h
    · rw [if_neg hcn]; exact h
  · unfold updateNoteCtrl
    by_cases hcn : db.connected = true
    · rw [if_pos hcn]
      cases hres : updateNote db.store idStr t c now with
      | error e => exact h
      | ok o =>
        cases o with
        | none => exact h
        | some p =>
          obtain ⟨u, s2⟩ := p
          unfold updateNote at hres
          cases hcast : castObjectId idStr with
          | none => rw [hcast] at hres; simp at hres
          | some n =>
            rw [hcast] at hres
            exact persistedValid_update h hres
    · rw [if_neg hcn]; exact h
  · unfold deleteNoteCtrl
    by_cases hcn : db.connected = true
    · rw [if_pos hcn]
      cases hres : deleteNote db.store idStr with
      | error e => exact h
      | ok o =>
        cases o with
        | none => exact h
        | some p =>
          obtain ⟨u, s2⟩ := p
          unfold deleteNote at hres
          cases hcast : castObjectId idStr with
          | none => rw [hcast] at hres; simp at hres
          | some n =>
            rw [hcast] at hres
            simp only [Except.ok.injEq] at hres
            exact persistedValid_delete h hres
    · rw [if_neg hcn]; exact h
  · unfold getAllNotesCtrl
    by_cases hcn : db.connected = true
    · rw [if_pos hcn]; exact h
    · rw [if_neg hcn]; exact h
  · unfold getNotesByIdCtrl
    by_cases hcn : db.connected = true
    · rw [if_pos hcn]
      cases hres : getNotesById db.store idStr with
      | error e => exact h
      | ok o =>
        cases o with
        | none => exact h
        | some note => exact h
    · rw [if_neg hcn]; exact h

/-- A one-document sample store used by the concrete witnesses. -/
def sampleStore : Store :=
  { notes := [{ id := 0, title := "hello", content := "world",
                createdAt := 1, updatedAt := 1 }],
    nextId := 1 }

def sampleDB : DB := { connected := true, store := sampleStore }

/-- A well-formed 24-character hexadecimal identifier string. -/
def sampleIdStr : String := "000000000000000000000000"

theorem claim_C1_witness :
    persistedValid sampleDB.store = true ∧
    (persistedValid ((createNoteCtrl sampleDB (some "x") (some "y") 5).2.store) = true ∧
     persistedValid ((updateNoteCtrl sampleDB sampleIdStr (some "x") (some "y") 5).2.store) = true ∧
     persistedValid ((deleteNoteCtrl sampleDB sampleIdStr).2.store) = true ∧
     persistedValid ((getAllNotesCtrl sampleDB).2.store) = true ∧
     persistedValid ((getNotesByIdCtrl sampleDB sampleIdStr).2.store) = true) :=
  ⟨by decide,
   claim_C1_persisted_nonempty sampleDB (some "x") (some "y") sampleIdStr 5 (by decide)⟩

end ThinkBoard

namespace ThinkBoard

/-- Claim C2: every create call with a missing or empty title or content
fails with a ValidationError, and the store is left unchanged: no record is
persisted (the controller returns the backend state untouched). -/
theorem claim_C2_create_validation (s : Store) (t c : Option String) (now : Nat)
    (h : checkRequired t = false ∨ checkRequired c = false) :
    saveNote s t c now = .error .validationError ∧
    (createNoteCtrl { connected := true, store := s } t c now).2 =
      { connected := true, store := s } := by
  have hv : ¬ (checkRequired t && checkRequired c) = true := by
    rcases h with h | h <;> simp [h]
  have hsave : saveNote s t c now = .error .validationError := by
    unfold saveNote; rw [if_neg hv]
  refine ⟨hsave, ?_⟩
  simp [createNoteCtrl, hsave]

theorem claim_C2_witness :
    (checkRequired (some "") = false ∨ checkRequired (some "body") = false) ∧
    (saveNote sampleStore (some "") (some "body") 7 = .error .validationError ∧
     (createNoteCtrl { connected := true, store := sampleStore } (some "") (some "body") 7).2 =
       { connected := true, store := sampleStore }) :=
  ⟨by decide, claim_C2_create_validation sampleStore (some "") (some "body") 7 (by decide)⟩

/-- Claim C3: whenever the shared 60-second window counter is at or above
100, the admission gate rejects the request with 429 and the note service
is never invoked; in particular, after any 100 requests of one window have
been admitted from a fresh window, the 101st request is rejected no matter
which endpoint or caller issued any of them, because the gate keys every
request to the one global key. -/
theorem claim_C3_rate_limit (st : RateLimitState) (r : Request)
    (reqs : List Request) (r2 : Request)
    (hfull : 100 ≤ st.count) (hlen : reqs.length = 100) :
    ratelimiter st r = ({ serviceInvoked := false, status := some 429 }, st) ∧
    (ratelimiter (runRequests { count := 0 } reqs) r2).1 =
      { serviceInvoked := false, status := some 429 } := by
  constructor
  · have hge : ¬ st.count < 100 := by omega
    simp [ratelimiter, ratelimitLimit, hge]
  · have hc : (runRequests { count := 0 } reqs).count = 100 := by
      rw [runRequests_count reqs { count := 0 } (by simp)]
      simp [hlen]
    have hge : ¬ (runRequests { count := 0 } reqs).count < 100 := by omega
    simp [ratelimiter, ratelimitLimit, hge]

theorem claim_C3_witness :
    (100 ≤ (RateLimitState.mk 100).count ∧
      (List.replicate 100 (Request.mk .getOne 1)).length = 100) ∧
    (ratelimiter { count := 100 } { endpoint := .getAll, caller := 0 } =
      ({ serviceInvoked := false, status := some 429 }, { count := 100 }) ∧
     (ratelimiter (runRequests { count := 0 }
         (List.replicate 100 { endpoint := .getOne, caller := 1 }))
         { endpoint := .create, caller := 2 }).1 =
       { serviceInvoked := false, status := some 429 }) :=
  ⟨⟨by decide, by simp⟩,
   claim_C3_rate_limit { count := 100 } { endpoint := .getAll, caller := 0 }
     (List.replicate 100 { endpoint := .getOne, caller := 1 })
     { endpoint := .create, caller := 2 } (by decide) (by simp)⟩

/-- Claim C4 fails on the code: a get on the malformed id "abc" does raise
the cast failure (InvalidIdentifier), but the controller's catch-all maps
it to status 500, which is a server-error status, not a client-error
status. -/
theorem claim_C4_counterexample :
    getNotesById { notes := [], nextId := 0 } "abc" = .error .castError ∧
    (getNotesByIdCtrl { connected := true, store := { notes := [], nextId := 0 } }
        "abc").1.status = 500 ∧
    ¬ (400 ≤ (getNotesByIdCtrl { connected := true, store := { notes := [], nextId := 0 } }
        "abc").1.status ∧
       (getNotesByIdCtrl { connected := true, store := { notes := [], nextId := 0 } }
        "abc").1.status < 500) :=
  ⟨rfl, by decide, by decide⟩

/-- Claim C4 as amended: for every get, update, or delete call whose id is
not a well-formed identifier, the operation fails with the cast failure
(InvalidIdentifier), which the controllers' catch-all maps to the generic
server-error status 500, not a client-error status. -/
theorem claim_C4_invalid_id_maps_to_500 (db : DB) (idStr : String)
    (t c : Option String) (now : Nat)
    (hconn : db.connected = true) (hbad : castObjectId idStr = none) :
    getNotesById db.store idStr = .error .castError ∧
    updateNote db.store idStr t c now = .error .castError ∧
    deleteNote db.store idStr = .error .castError ∧
    (getNotesByIdCtrl db idStr).1 = serverError ∧
    (updateNoteCtrl db idStr t c now).1 = serverError ∧
    (deleteNoteCtrl db idStr).1 = serverError := by
  have hget : getNotesById db.store idStr = .error .castError := by
    unfold getNotesById; rw [hbad]
  have hupd : updateNote db.store idStr t c now = .error .castError := by
    unfold updateNote; rw [hbad]
  have hdel : deleteNote db.store idStr = .error .castError := by
    unfold deleteNote; rw [hbad]
  refine ⟨hget, hupd, hdel, ?_, ?_, ?_⟩
  · simp [getNotesByIdCtrl, hconn, hget]
  · simp [updateNoteCtrl, hconn, hupd]
  · simp [deleteNoteCtrl, hconn, hdel]

theorem claim_C4_witness :
    (sampleDB.connected = true ∧ castObjectId "abc" = none) ∧
    (getNotesById sampleDB.store "abc" = .error .castError ∧
     updateNote sampleDB.store "abc" (some "x") (some "y") 9 = .error .castError ∧
     deleteNote sampleDB.store "abc" = .error .castError ∧
     (getNotesByIdCtrl sampleDB "abc").1 = serverError ∧
     (updateNoteCtrl sampleDB "abc" (some "x") (some "y") 9).1 = serverError ∧
     (deleteNoteCtrl sampleDB "abc").1 = serverError) :=
  ⟨⟨by decide, by decide⟩,
   claim_C4_invalid_id_maps_to_500 sampleDB "abc" (some "x") (some "y") 9
     (by decide) (by decide)⟩

/-- Claim C5: the list operation returns all Notes (a permutation of the
store's documents) ordered by createdAt descending (newest first), and on
an empty store the endpoint answers 200 with the empty array rather than
an error. -/
theorem claim_C5_list_sorted (s : Store) :
    List.Perm (findSorted s) s.notes ∧
    List.Sorted byNewest (findSorted s) ∧
    (getAllNotesCtrl { connected := true, store := { notes := [], nextId := 0 } }).1 =
      { status := 200, body := .notesBody [] } :=
  ⟨List.perm_insertionSort byNewest s.notes,
   List.sorted_insertionSort byNewest s.notes,
   rfl⟩

end ThinkBoard

namespace ThinkBoard

/-- The one document of the sample store. -/
def sampleNote : Note :=
  { id := 0, title := "hello", content := "world", createdAt := 1, updatedAt := 1 }

/-- Claim C6: a successful update overwrites title and content, refreshes
updatedAt (so it exceeds createdAt whenever the clock has advanced past the
creation instant), and leaves every other field of the document — its id
and its createdAt in particular — unchanged; reading the id back returns
exactly the updated document. -/
theorem claim_C6_update_frame (s : Store) (n : Nat) (t c : String) (now : Nat)
    (old : Note) (ht : ¬ t = "") (hc : ¬ c = "")
    (hfind : findById s n = some old) (htime : old.createdAt < now) :
    findByIdAndUpdate s n (some t) (some c) now =
      .ok (some (applyUpdate old t c now,
        { s with notes := s.notes.map (fun note =>
            if note.id == n then applyUpdate old t c now else note) })) ∧
    (applyUpdate old t c now).title = t ∧
    (applyUpdate old t c now).content = c ∧
    (applyUpdate old t c now).id = old.id ∧
    (applyUpdate old t c now).createdAt = old.createdAt ∧
    (applyUpdate old t c now).createdAt < (applyUpdate old t c now).updatedAt ∧
    findById { s with notes := s.notes.map (fun note =>
        if note.id == n then applyUpdate old t c now else note) } n =
      some (applyUpdate old t c now) := by
  have hv : (checkRequired (some t) && checkRequired (some c)) = true := by
    simp [checkRequired, ht, hc]
  unfold findById at hfind
  have hid : ((applyUpdate old t c now).id == n) = true := by
    have hp := List.find?_some hfind
    simpa [applyUpdate] using hp
  refine ⟨?_, rfl, rfl, rfl, rfl, ?_, ?_⟩
  · unfold findByIdAndUpdate
    rw [if_pos hv, hfind]
    rfl
  · exact htime
  · unfold findById
    exact find?_map_update s.notes n (applyUpdate old t c now) old hid hfind

theorem claim_C6_witness :
    ((¬ "x" = "") ∧ (¬ "y" = "") ∧
     findById sampleStore 0 = some sampleNote ∧ sampleNote.createdAt < 5) ∧
    (findByIdAndUpdate sampleStore 0 (some "x") (some "y") 5 =
      .ok (some (applyUpdate sampleNote "x" "y" 5,
        { sampleStore with notes := sampleStore.notes.map (fun note =>
            if note.id == 0 then applyUpdate sampleNote "x" "y" 5 else note) })) ∧
     (applyUpdate sampleNote "x" "y" 5).title = "x" ∧
     (applyUpdate sampleNote "x" "y" 5).content = "y" ∧
     (applyUpdate sampleNote "x" "y" 5).id = sampleNote.id ∧
     (applyUpdate sampleNote "x" "y" 5).createdAt = sampleNote.createdAt ∧
     (applyUpdate sampleNote "x" "y" 5).createdAt <
       (applyUpdate sampleNote "x" "y" 5).updatedAt ∧
     findById { sampleStore with notes := sampleStore.notes.map (fun note =>
         if note.id == 0 then applyUpdate sampleNote "x" "y" 5 else note) } 0 =
       some (applyUpdate sampleNote "x" "y" 5)) :=
  ⟨⟨by decide, by decide, by decide, by decide⟩,
   claim_C6_update_frame sampleStore 0 "x" "y" 5 sampleNote
     (by decide) (by decide) (by decide) (by decide)⟩

/-- The document a successful create persists: fresh id from the store's
generator, the given title and content, both timestamps at the current
instant. -/
def freshNote (s : Store) (t c : String) (now : Nat) : Note :=
  { id := s.nextId, title := t, content := c, createdAt := now, updatedAt := now }

/-- Claim C7: for all non-empty title and content, create succeeds and a get
on the new Note's id returns a document whose title and content match the
inputs, whose createdAt equals updatedAt, and whose id differs from every
other Note's id. -/
theorem claim_C7_create_get (s : Store) (t c : String) (now : Nat)
    (ht : ¬ t = "") (hc : ¬ c = "") (hwf : storeWF s = true) :
    saveNote s (some t) (some c) now =
      .ok (freshNote s t c now,
        { notes := s.notes ++ [freshNote s t c now], nextId := s.nextId + 1 }) ∧
    findById { notes := s.notes ++ [freshNote s t c now], nextId := s.nextId + 1 }
        (freshNote s t c now).id = some (freshNote s t c now) ∧
    (freshNote s t c now).title = t ∧
    (freshNote s t c now).content = c ∧
    (freshNote s t c now).createdAt = (freshNote s t c now).updatedAt ∧
    (∀ m ∈ s.notes, ¬ m.id = (freshNote s t c now).id) := by
  have hv : (checkRequired (some t) && checkRequired (some c)) = true := by
    simp [checkRequired, ht, hc]
  refine ⟨?_, ?_, rfl, rfl, rfl, ?_⟩
  · unfold saveNote
    rw [if_pos hv]
    rfl
  · unfold findById
    apply find?_append_last
    · intro x hx
      have hlt : x.id < s.nextId := storeWF_iff.mp hwf x hx
      simp only [freshNote]
      simp only [beq_eq_false_iff_ne, ne_eq]
      omega
    · simp [freshNote]
  · intro m hm
    have hlt : m.id < s.nextId := storeWF_iff.mp hwf m hm
    simp only [freshNote]
    omega

theorem claim_C7_witness :
    ((¬ "t2" = "") ∧ (¬ "c2" = "") ∧ storeWF sampleStore = true) ∧
    (saveNote sampleStore (some "t2") (some "c2") 9 =
      .ok (freshNote sampleStore "t2" "c2" 9,
        { notes := sampleStore.notes ++ [freshNote sampleStore "t2" "c2" 9],
          nextId := sampleStore.nextId + 1 }) ∧
     findById { notes := sampleStore.notes ++ [freshNote sampleStore "t2" "c2" 9], nextId := sampleStore.nextId + 1 }
        (freshNote sampleStore "t2" "c2" 9).id = some (freshNote sampleStore "t2" "c2" 9) ∧
     (freshNote sampleStore "t2" "c2" 9).title = "t2" ∧
     (freshNote sampleStore "t2" "c2" 9).content = "c2" ∧
     (freshNote sampleStore "t2" "c2" 9).createdAt =
       (freshNote sampleStore "t2" "c2" 9).updatedAt ∧
     (∀ m ∈ sampleStore.notes, ¬ m.id = (freshNote sampleStore "t2" "c2" 9).id)) :=
  ⟨⟨by decide, by decide, by decide⟩,
   claim_C7_create_get sampleStore "t2" "c2" 9 (by decide) (by decide) (by decide)⟩

end ThinkBoard

namespace ThinkBoard

/-- A backend with an established connection and an empty store. -/
def emptyDB : DB := { connected := true, store := { notes := [], nextId := 0 } }

/-- Claim C8: with a well-formed id, a delete followed by a get on the same
id always answers NotFound (status 404), and a get, update (with valid
fields), or delete on a well-formed id that matches no stored document
answers NotFound (status 404) as well. -/
theorem claim_C8_delete_then_get (db : DB) (idStr : String) (n : Nat)
    (t c : Option String) (now : Nat)
    (hconn : db.connected = true) (hcast : castObjectId idStr = some n)
    (ht : checkRequired t = true) (hc : checkRequired c = true) :
    (getNotesByIdCtrl (deleteNoteCtrl db idStr).2 idStr).1 = notFoundError ∧
    (findById db.store n = none →
      (getNotesByIdCtrl db idStr).1 = notFoundError ∧
      (updateNoteCtrl db idStr t c now).1 = notFoundError ∧
      (deleteNoteCtrl db idStr).1 = notFoundError) := by
  have hdel : deleteNote db.store idStr = .ok (findByIdAndDelete db.store n) := by
    unfold deleteNote; rw [hcast]
  have hv : (checkRequired t && checkRequired c) = true := by simp [ht, hc]
  constructor
  · cases hfd : db.store.notes.find? (fun note => note.id == n) with
    | none =>
      have h1 : findByIdAndDelete db.store n = none := by
        unfold findByIdAndDelete; rw [hfd]
      have h2 : (deleteNoteCtrl db idStr).2 = db := by
        simp [deleteNoteCtrl, hconn, hdel, h1]
      have h3 : findById db.store n = none := by unfold findById; rw [hfd]
      rw [h2]
      simp [getNotesByIdCtrl, getNotesById, hconn, hcast, h3]
    | some old =>
      have h1 : findByIdAndDelete db.store n =
          some (old, { db.store with notes := db.store.notes.filter (fun note => !(note.id == n)) }) := by
        unfold findByIdAndDelete; rw [hfd]
      have h2 : (deleteNoteCtrl db idStr).2 =
          { db with store := { db.store with notes := db.store.notes.filter (fun note => !(note.id == n)) } } := by
        simp [deleteNoteCtrl, hconn, hdel, h1]
      have h3 : findById { db.store with notes := db.store.notes.filter (fun note => !(note.id == n)) } n = none := by
        unfold findById
        exact find?_filter_ne _ _
      rw [h2]
      simp [getNotesByIdCtrl, getNotesById, hconn, hcast, h3]
  · intro habs
    have hfd : db.store.notes.find? (fun note => note.id == n) = none := habs
    have hupd : findByIdAndUpdate db.store n t c now = .ok none := by
      unfold findByIdAndUpdate
      rw [if_pos hv, hfd]
    have h1 : findByIdAndDelete db.store n = none := by
      unfold findByIdAndDelete; rw [hfd]
    refine ⟨?_, ?_, ?_⟩
    · simp [getNotesByIdCtrl, getNotesById, hconn, hcast, habs]
    · simp [updateNoteCtrl, updateNote, hconn, hcast, hupd]
    · simp [deleteNoteCtrl, hconn, hdel, h1]

theorem claim_C8_witness :
    (emptyDB.connected = true ∧ castObjectId sampleIdStr = some 0 ∧
     checkRequired (some "x") = true ∧ checkRequired (some "y") = true) ∧
    ((getNotesByIdCtrl (deleteNoteCtrl emptyDB sampleIdStr).2 sampleIdStr).1 = notFoundError ∧
     (findById emptyDB.store 0 = none →
       (getNotesByIdCtrl emptyDB sampleIdStr).1 = notFoundError ∧
       (updateNoteCtrl emptyDB sampleIdStr (some "x") (some "y") 3).1 = notFoundError ∧
       (deleteNoteCtrl emptyDB sampleIdStr).1 = notFoundError)) :=
  ⟨⟨by decide, by decide, by decide, by decide⟩,
   claim_C8_delete_then_get emptyDB sampleIdStr 0 (some "x") (some "y") 3
     (by decide) (by decide) (by decide) (by decide)⟩

/-- Claim C9: a successful create answers status 201 and its body is only
the confirmation message, not the created Note record. -/
theorem claim_C9_create_response (db : DB) (t c : String) (now : Nat)
    (hconn : db.connected = true) (ht : ¬ t = "") (hc : ¬ c = "") :
    (createNoteCtrl db (some t) (some c) now).1.status = 201 ∧
    (createNoteCtrl db (some t) (some c) now).1.body =
      .message "Note created sucessfully" := by
  have hv : (checkRequired (some t) && checkRequired (some c)) = true := by
    simp [checkRequired, ht, hc]
  have hsave : saveNote db.store (some t) (some c) now =
      .ok (freshNote db.store t c now,
        { notes := db.store.notes ++ [freshNote db.store t c now],
          nextId := db.store.nextId + 1 }) := by
    unfold saveNote
    rw [if_pos hv]
    rfl
  constructor <;> simp [createNoteCtrl, hconn, hsave]

theorem claim_C9_witness :
    (sampleDB.connected = true ∧ (¬ "a" = "") ∧ (¬ "b" = "")) ∧
    ((createNoteCtrl sampleDB (some "a") (some "b") 4).1.status = 201 ∧
     (createNoteCtrl sampleDB (some "a") (some "b") 4).1.body =
       .message "Note created sucessfully") :=
  ⟨⟨by decide, by decide, by decide⟩,
   claim_C9_create_response sampleDB "a" "b" 4 (by decide) (by decide) (by decide)⟩

/-- Claim C10: connectDB catches a failed initial connection and resolves
normally, so the server begins listening either way (startup never aborts
on a store connection failure), and with no established connection every
store-backed operation fails at request time with the server-error
response. -/
theorem claim_C10_startup_survives_connect_failure (connectOk : Bool)
    (s : Store) (t c : Option String) (idStr : String) (now : Nat) :
    connectDB connectOk = .ok connectOk ∧
    startServer connectOk = .ok { listening := true, dbConnected := connectOk } ∧
    (getAllNotesCtrl { connected := false, store := s }).1 = serverError ∧
    (getNotesByIdCtrl { connected := false, store := s } idStr).1 = serverError ∧
    (createNoteCtrl { connected := false, store := s } t c now).1 = serverError ∧
    (updateNoteCtrl { connected := false, store := s } idStr t c now).1 = serverError ∧
    (deleteNoteCtrl { connected := false, store := s } idStr).1 = serverError := by
  refine ⟨?_, ?_, rfl, rfl, rfl, rfl, rfl⟩
  · cases connectOk <;> rfl
  · cases connectOk <;> rfl

end ThinkBoard
